import Mathlib

set_option autoImplicit false

/-!
Verification development for the bilstm_imdb_scratch example notebook
(examples/classification/bilstm_imdb_scratch.ipynb).

The notebook is a sequential script: data preparation (tokenize, lookup,
pad to a fixed maximum length, batch), model assembly (pretrained
embedding feeding a stacked bidirectional LSTM with a linear classifier
head), a training loop (train_step / train_one_epoch), an evaluation
loop (evaluate), and an epoch loop that checkpoints on validation-loss
improvement.

Numeric scalars (losses, accuracies) are embedded as rationals; tensor
kernels, autograd and the optimizer update rule are external collaborators
and appear as abstract function parameters collected in a Framework
structure.  Python division raising ZeroDivisionError is embedded as an
Option-valued division.
-/

namespace BilstmImdb

/-! ## Data preparation pipeline -/

/-- Source: max_length = 256 in the notebook. -/
def max_length : ℕ := 256

/-- Modelled from the spec: mindnlp.transforms.PadTransform is not under
src/ (the notebook only constructs it as pad_op = PadTransform(max_length,
pad_value)).  The spec describes it as the padding collaborator that pads
or truncates a token-id sequence to the maximum length, filling the
remainder with the designated padding id. -/
def padTransform (maxLen : ℕ) (padValue : ℕ) (seq : List ℕ) : List ℕ :=
  seq.take maxLen ++ List.replicate (maxLen - seq.length) padValue

/-! ## Model assembly (shape level)

The RNN class in the notebook wires an embedding component, a StaticLSTM
and a Dense head.  StaticLSTM and the embedding live in mindnlp /
mindspore, outside src/; only their construction arguments and the shapes
flowing through RNN.construct are visible here, so the components are
modelled at shape level from the spec. -/

/-- Modelled from the spec: the embedding collaborator (Glove) is not
under src/; the spec says it exposes an embedding dimensionality (the
notebook reads embedding._embed_dim) and maps token ids to dense vectors
of that width. -/
structure EmbeddingComp where
  embed_dim : ℕ

/-- Modelled from the spec: mindnlp.modules.StaticLSTM is not under src/;
the notebook constructs it from an input size, hidden size, number of
layers, bidirectional flag, batch_first flag and dropout probability. -/
structure LSTMComp where
  input_size : ℕ
  hidden_size : ℕ
  num_layers : ℕ
  bidirectional : Bool
  batch_first : Bool
  dropout : ℚ

/-- Modelled from the spec: mindspore nn.Dense is an external collaborator;
the notebook constructs it from input and output channel counts. -/
structure DenseComp where
  in_channels : ℕ
  out_channels : ℕ

/-- The RNN module of the notebook: embedding, StaticLSTM, Dense head. -/
structure RNNModel where
  embedding : EmbeddingComp
  rnn : LSTMComp
  fc : DenseComp

/-- Source: RNN.__init__ in the notebook.  embedding_dim is read from the
embedding component; the LSTM is constructed with that input size,
batch_first=True and dropout=0.5; the head is Dense(hidden_dim * 2,
output_dim). -/
def RNN.init (embedding : EmbeddingComp) (hidden_dim output_dim n_layers : ℕ)
    (bidirectional : Bool) : RNNModel :=
  let embedding_dim := embedding.embed_dim
  { embedding := embedding
    rnn := { input_size := embedding_dim, hidden_size := hidden_dim,
             num_layers := n_layers, bidirectional := bidirectional,
             batch_first := true, dropout := 1 / 2 }
    fc := { in_channels := hidden_dim * 2, out_channels := output_dim } }

/-- A tensor shape: list of dimension sizes. -/
abbrev Shape := List ℕ

/-- Modelled from the spec: the embedding lookup maps a tensor of token
ids to dense vectors, appending the embedding dimension to the shape. -/
def embedShape (e : EmbeddingComp) (s : Shape) : Shape :=
  s ++ [e.embed_dim]

/-- Modelled from the spec: the hidden state returned by the recurrent
collaborator has shape (num_directions * num_layers, batch, hidden_size);
it is produced only when the input feature width matches the constructed
input size. -/
def lstmHiddenShape (l : LSTMComp) (input : Shape) : Option Shape :=
  match input with
  | [b, _, f] =>
      if f = l.input_size then
        some [(if l.bidirectional then 2 else 1) * l.num_layers, b, l.hidden_size]
      else none
  | _ => none

/-- Negative indexing hidden[-k, :, :] on the leading axis: defined when
the leading dimension is at least k, and drops that axis. -/
def negIndexFirst (k : ℕ) (s : Shape) : Option Shape :=
  match s with
  | d :: rest => if 1 ≤ k ∧ k ≤ d then some rest else none
  | [] => none

/-- Modelled from the spec: ops.concat along axis 1 of two rank-2 tensors
requires equal leading dimensions and adds the widths. -/
def concatAxis1 (s1 s2 : Shape) : Option Shape :=
  match s1, s2 with
  | [a, b], [c, d] => if a = c then some [a, b + d] else none
  | _, _ => none

/-- Modelled from the spec: the linear head maps (b, in_channels) to
(b, out_channels), defined only when the input width matches. -/
def denseShape (d : DenseComp) (s : Shape) : Option Shape :=
  match s with
  | [b, f] => if f = d.in_channels then some [b, d.out_channels] else none
  | _ => none

/-- Source: RNN.construct in the notebook, at shape level: embed the
(b, L) input, run the LSTM, take hidden[-2] and hidden[-1], concatenate
them along axis 1 and apply the head. -/
def RNN.constructShape (m : RNNModel) (b L : ℕ) : Option Shape := do
  let embedded := embedShape m.embedding [b, L]
  let hidden ← lstmHiddenShape m.rnn embedded
  let h2 ← negIndexFirst 2 hidden
  let h1 ← negIndexFirst 1 hidden
  let hcat ← concatAxis1 h2 h1
  denseShape m.fc hcat

/-- Source: hyperparameters of the notebook. -/
def hidden_size : ℕ := 256
def output_size : ℕ := 2
def num_layers : ℕ := 2
def bidirectional : Bool := true

/-! ## Theorems about the data pipeline and shapes -/

/-- C6: padding a token-id sequence shorter than max_length = 256 yields a
sequence of exactly max_length whose first elements are the original
sequence and whose remaining elements all equal the padding id. -/
theorem pad_short_sequence (padValue : ℕ) (seq : List ℕ)
    (h : seq.length < max_length) :
    (padTransform max_length padValue seq).length = max_length ∧
      (padTransform max_length padValue seq).take seq.length = seq ∧
      ∀ x ∈ (padTransform max_length padValue seq).drop seq.length,
        x = padValue := by
  unfold padTransform
  have htake : seq.take max_length = seq := List.take_of_length_le (le_of_lt h)
  refine ⟨?_, ?_, ?_⟩
  · simp [htake]
    omega
  · rw [htake]
    rw [List.take_append_of_le_length (le_refl _)]
    exact List.take_length seq
  · intro x hx
    rw [htake, List.drop_append_of_le_length (le_refl _), List.drop_length,
      List.nil_append] at hx
    exact List.eq_of_mem_replicate hx

/-- Closed witness for the padding theorem at a concrete short sequence. -/
theorem pad_short_sequence_witness :
    ([3, 5, 7] : List ℕ).length < max_length ∧
      ((padTransform max_length 9 [3, 5, 7]).length = max_length ∧
        (padTransform max_length 9 [3, 5, 7]).take 3 = [3, 5, 7] ∧
        ∀ x ∈ (padTransform max_length 9 [3, 5, 7]).drop 3, x = 9) :=
  ⟨by decide, pad_short_sequence 9 [3, 5, 7] (by decide)⟩

/-- C7: every token-id sequence leaving the map pipeline has exactly
max_length elements (short sequences are padded, long ones truncated), and
the RNN is assembled so that the encoder input width equals the embedding
dimensionality exposed by the embedding component. -/
theorem pipeline_invariant (padValue : ℕ) (emb : EmbeddingComp) :
    (∀ seq : List ℕ, (padTransform max_length padValue seq).length = max_length) ∧
      (RNN.init emb hidden_size output_size num_layers bidirectional).rnn.input_size
        = emb.embed_dim := by
  constructor
  · intro seq
    unfold padTransform
    simp
    omega
  · rfl

/-- C8: for every batch size b of padded (length max_length) sequences,
the forward pass yields logits of shape (b, output_size): the two final
hidden states of width hidden_size are concatenated to width
2 * hidden_size and mapped through the Dense head of output width
output_size = 2. -/
theorem construct_logits_shape (emb : EmbeddingComp) (b : ℕ) :
    RNN.constructShape
        (RNN.init emb hidden_size output_size num_layers bidirectional) b max_length
      = some [b, output_size] ∧
      (RNN.init emb hidden_size output_size num_layers bidirectional).fc.in_channels
        = 2 * hidden_size ∧
      (RNN.init emb hidden_size output_size num_layers bidirectional).fc.out_channels
        = output_size := by
  refine ⟨?_, by simp [RNN.init, hidden_size], rfl⟩
  simp [RNN.constructShape, RNN.init, embedShape, lstmHiddenShape, negIndexFirst,
    concatAxis1, denseShape, hidden_size, output_size, num_layers, bidirectional,
    Option.bind]

/-! ## Training and evaluation orchestration

The orchestration functions of the notebook (forward_fn, grad_fn,
train_step, train_one_epoch, evaluate, epoch loop) are embedded with the
external framework collaborators (tensor forward pass, autograd gradient,
optimizer update rule, loss criterion, accuracy metric) as abstract
functions collected in a Framework record.  The mutable model object is
a record of its parameters and its training-mode flag; mutation becomes
explicit state passing. -/

/-- A model object: its parameter tensors and its training-mode flag
(set_train mutates the flag; the optimizer mutates the parameters). -/
structure Model (Param : Type) where
  params : Param
  training : Bool
  deriving DecidableEq

/-- The external collaborators of the notebook.  forward and grad take the
training-mode flag because the network contains dropout, active only in
training mode; in inference mode the forward pass is a pure function of
parameters and input. -/
structure Framework (Param Grad Opt Data Label Pred : Type) where
  forward : Bool → Param → Data → Pred
  grad : Bool → Param → Data → Label → Grad
  optStep : Opt → Param → Grad → Opt × Param
  criterion : Pred → Label → ℚ
  accuracy : Pred → Label → ℚ

section Orchestration

variable {Param Grad Opt Data Label Pred : Type}

/-- model(x): the forward pass dispatches on the training flag. -/
def modelApply (F : Framework Param Grad Opt Data Label Pred)
    (m : Model Param) (data : Data) : Pred :=
  F.forward m.training m.params data

/-- Source: forward_fn in the notebook: logits = model(data); loss =
loss_fn(logits, label); return loss. -/
def forward_fn (F : Framework Param Grad Opt Data Label Pred)
    (m : Model Param) (data : Data) (label : Label) : ℚ :=
  F.criterion (modelApply F m data) label

/-- Source: grad_fn = ms.value_and_grad(forward_fn, None,
optimizer.parameters): returns the value of forward_fn together with the
gradients with respect to the trainable parameters. -/
def grad_fn (F : Framework Param Grad Opt Data Label Pred)
    (m : Model Param) (data : Data) (label : Label) : ℚ × Grad :=
  (forward_fn F m data label, F.grad m.training m.params data label)

/-- The state mutated by a training step: the model and the optimizer
internal state. -/
structure TrainState (Param Opt : Type) where
  model : Model Param
  opt : Opt
  deriving DecidableEq

/-- Source: train_step in the notebook: loss, grads = grad_fn(data,
label); optimizer(grads); return loss.  The optimizer application
mutates its own state and the model parameters. -/
def train_step (F : Framework Param Grad Opt Data Label Pred)
    (s : TrainState Param Opt) (data : Data) (label : Label) :
    ℚ × TrainState Param Opt :=
  let lg := grad_fn F s.model data label
  let op := F.optStep s.opt s.model.params lg.2
  (lg.1, ⟨⟨op.2, s.model.training⟩, op.1⟩)

/-- Loop accumulator of train_one_epoch: current train state, loss_total,
step_total, and the running-average losses shown by t.set_postfix after
each step. -/
structure EpochAcc (Param Opt : Type) where
  st : TrainState Param Opt
  loss_total : ℚ
  step_total : ℕ
  reports : List ℚ

/-- One iteration of the train_one_epoch loop body. -/
def train_epoch_body (F : Framework Param Grad Opt Data Label Pred)
    (a : EpochAcc Param Opt) (b : Data × Label) : EpochAcc Param Opt :=
  let ls := train_step F a.st b.1 b.2
  let lt := a.loss_total + ls.1
  let sc := a.step_total + 1
  { st := ls.2, loss_total := lt, step_total := sc,
    reports := a.reports ++ [lt / ((sc : ℕ) : ℚ)] }

/-- Source: train_one_epoch in the notebook: model.set_train(); iterate
the dataset, call train_step per batch, accumulate loss_total and
step_total, display loss_total/step_total after each step.  The Python
function returns None; its observable outputs are the mutated state and
the displayed running averages. -/
def train_one_epoch (F : Framework Param Grad Opt Data Label Pred)
    (m : Model Param) (opt : Opt) (batches : List (Data × Label)) :
    TrainState Param Opt × List ℚ :=
  let start : Model Param := { m with training := true }
  let fin := batches.foldl (train_epoch_body F) ⟨⟨start, opt⟩, 0, 0, []⟩
  (fin.st, fin.reports)

/-- Loop accumulator of evaluate: epoch_loss, epoch_acc, step_total and
the (loss, acc) running averages shown after each step. -/
structure EvalAcc where
  epoch_loss : ℚ
  epoch_acc : ℚ
  step_total : ℕ
  reports : List (ℚ × ℚ)

/-- One iteration of the evaluate loop body: predictions = model(i[0]);
loss = criterion(predictions, i[1]); accumulate loss and accuracy. -/
def eval_body (F : Framework Param Grad Opt Data Label Pred)
    (m : Model Param) (a : EvalAcc) (b : Data × Label) : EvalAcc :=
  let predictions := modelApply F m b.1
  let loss := F.criterion predictions b.2
  let acc := F.accuracy predictions b.2
  let el := a.epoch_loss + loss
  let ea := a.epoch_acc + acc
  let sc := a.step_total + 1
  { epoch_loss := el, epoch_acc := ea, step_total := sc,
    reports := a.reports ++ [(el / ((sc : ℕ) : ℚ), ea / ((sc : ℕ) : ℚ))] }

/-- Total core of evaluate: model.set_train(False), fold the loop body
over the batches, and form epoch_loss / total with total the dataset
size (the division here is Lean total division; the fallible Python
division is evaluate below). -/
def evaluateT (F : Framework Param Grad Opt Data Label Pred)
    (m : Model Param) (batches : List (Data × Label)) :
    Model Param × ℚ :=
  let m2 : Model Param := { m with training := false }
  let fin := batches.foldl (eval_body F m2) ⟨0, 0, 0, []⟩
  (m2, fin.epoch_loss / ((batches.length : ℕ) : ℚ))

/-- Source: evaluate in the notebook.  Returns epoch_loss / total where
total = test_dataset.get_dataset_size(); Python division raises
ZeroDivisionError when total = 0, embedded as none. -/
def evaluate (F : Framework Param Grad Opt Data Label Pred)
    (m : Model Param) (batches : List (Data × Label)) :
    Model Param × Option ℚ :=
  let r := evaluateT F m batches
  (r.1, if batches.length = 0 then none else some r.2)

/-! ## The epoch loop -/

/-- Source: num_epochs = 5 in the notebook. -/
def num_epochs : ℕ := 5

/-- The state threaded through the epoch loop: the model and optimizer,
best_valid_loss (initially float inf, embedded as the top element), and
the contents of the checkpoint file ./sentiment_analysis.ckpt (none while
never written; each write overwrites it with the current parameters). -/
structure LoopState (Param Opt : Type) where
  model : Model Param
  opt : Opt
  best_valid_loss : WithTop ℚ
  ckpt : Option Param
  deriving DecidableEq

/-- Source: initialization before the epoch loop: best_valid_loss =
float(inf) and no checkpoint written yet. -/
def initialState (m : Model Param) (opt : Opt) : LoopState Param Opt :=
  ⟨m, opt, ⊤, none⟩

/-- Total body of one epoch of the loop: train_one_epoch, evaluate (total
core), then compare valid_loss with best_valid_loss and checkpoint on
strict improvement.  Also returns the computed valid_loss and whether
ms.save_checkpoint was called. -/
def runEpochT (F : Framework Param Grad Opt Data Label Pred)
    (trainB valB : List (Data × Label)) (s : LoopState Param Opt) :
    LoopState Param Opt × ℚ × Bool :=
  let t := train_one_epoch F s.model s.opt trainB
  let e := evaluateT F t.1.model valB
  let valid_loss := e.2
  if (valid_loss : WithTop ℚ) < s.best_valid_loss then
    (⟨e.1, t.1.opt, (valid_loss : WithTop ℚ), some e.1.params⟩, valid_loss, true)
  else
    (⟨e.1, t.1.opt, s.best_valid_loss, s.ckpt⟩, valid_loss, false)

/-- Source: one iteration of the epoch loop, with the fallible evaluate:
if evaluate raises (zero batches), the loop aborts with none. -/
def runEpoch (F : Framework Param Grad Opt Data Label Pred)
    (trainB valB : List (Data × Label)) (s : LoopState Param Opt) :
    Option (LoopState Param Opt × ℚ × Bool) :=
  let t := train_one_epoch F s.model s.opt trainB
  let e := evaluate F t.1.model valB
  match e.2 with
  | none => none
  | some valid_loss =>
    if (valid_loss : WithTop ℚ) < s.best_valid_loss then
      some (⟨e.1, t.1.opt, (valid_loss : WithTop ℚ), some e.1.params⟩,
        valid_loss, true)
    else
      some (⟨e.1, t.1.opt, s.best_valid_loss, s.ckpt⟩, valid_loss, false)

/-- Source: the epoch loop, for epoch in range(num_epochs), run with a
given iteration count; aborts with none if an epoch raises. -/
def runEpochs (F : Framework Param Grad Opt Data Label Pred)
    (trainB valB : List (Data × Label)) :
    ℕ → LoopState Param Opt → Option (LoopState Param Opt)
  | 0, s => some s
  | n + 1, s => (runEpoch F trainB valB s).bind
      fun p => runEpochs F trainB valB n p.1

/-- The loop state after e epochs (total mirror of runEpochs). -/
def stateAfter (F : Framework Param Grad Opt Data Label Pred)
    (trainB valB : List (Data × Label)) (s : LoopState Param Opt) :
    ℕ → LoopState Param Opt
  | 0 => s
  | e + 1 => (runEpochT F trainB valB (stateAfter F trainB valB s e)).1

/-- The validation loss computed in epoch e (0-indexed). -/
def lossAt (F : Framework Param Grad Opt Data Label Pred)
    (trainB valB : List (Data × Label)) (s : LoopState Param Opt)
    (e : ℕ) : ℚ :=
  (runEpochT F trainB valB (stateAfter F trainB valB s e)).2.1

/-- Whether ms.save_checkpoint is called in epoch e (0-indexed). -/
def wroteAt (F : Framework Param Grad Opt Data Label Pred)
    (trainB valB : List (Data × Label)) (s : LoopState Param Opt)
    (e : ℕ) : Bool :=
  (runEpochT F trainB valB (stateAfter F trainB valB s e)).2.2

/-- The minimum of the validation losses of epochs before e, with the
empty minimum equal to top (the initial best, float inf). -/
def minPrevLoss (F : Framework Param Grad Opt Data Label Pred)
    (trainB valB : List (Data × Label)) (s : LoopState Param Opt)
    (e : ℕ) : WithTop ℚ :=
  ((List.range e).map fun k => ((lossAt F trainB valB s k : ℚ) : WithTop ℚ)).foldl
    min ⊤

/-! ## Specification-side descriptions -/

/-- The loss the evaluation loop computes for one batch. -/
def batchLoss (F : Framework Param Grad Opt Data Label Pred)
    (m : Model Param) (b : Data × Label) : ℚ :=
  F.criterion (modelApply F m b.1) b.2

/-- The per-step training losses: the loss of step k is computed at the
state reached after k - 1 optimizer updates. -/
def stepLosses (F : Framework Param Grad Opt Data Label Pred) :
    TrainState Param Opt → List (Data × Label) → List ℚ
  | _, [] => []
  | s, b :: bs =>
      (train_step F s b.1 b.2).1 :: stepLosses F (train_step F s b.1 b.2).2 bs

/-- Running averages: element k is the mean of the first k + 1 losses. -/
def prefixAverages (ls : List ℚ) : List ℚ :=
  (List.range ls.length).map fun k => (ls.take (k + 1)).sum / ((k + 1 : ℕ) : ℚ)

/-! ## Loop lemmas -/

theorem eval_fold_loss (F : Framework Param Grad Opt Data Label Pred)
    (m : Model Param) (bs : List (Data × Label)) (a : EvalAcc) :
    (bs.foldl (eval_body F m) a).epoch_loss
      = a.epoch_loss + (bs.map (batchLoss F m)).sum := by
  induction bs generalizing a with
  | nil => simp
  | cons b bs ih =>
    simp only [List.foldl_cons, List.map_cons, List.sum_cons, ih, eval_body,
      batchLoss]
    ring

theorem train_fold_training (F : Framework Param Grad Opt Data Label Pred)
    (bs : List (Data × Label)) (a : EpochAcc Param Opt) :
    (bs.foldl (train_epoch_body F) a).st.model.training
      = a.st.model.training := by
  induction bs generalizing a with
  | nil => rfl
  | cons b bs ih => simp only [List.foldl_cons, ih, train_epoch_body, train_step]

/-! ## Theorems about evaluate and the training-mode flag -/

/-- C2: for every non-empty batch sequence, evaluate returns the mean
loss: the sum of the per-batch losses divided by the number of batches
the dataset reports. -/
theorem evaluate_mean_loss (F : Framework Param Grad Opt Data Label Pred)
    (m : Model Param) (bs : List (Data × Label)) (h : bs ≠ []) :
    (evaluate F m bs).2
      = some ((bs.map (batchLoss F ⟨m.params, false⟩)).sum
          / ((bs.length : ℕ) : ℚ)) := by
  have h0 : bs.length ≠ 0 := by simpa [List.length_eq_zero] using h
  simp only [evaluate, evaluateT, if_neg h0, eval_fold_loss, zero_add]

/-- C3: evaluate leaves the model parameters unchanged: no gradient
computation or optimizer update occurs in its body. -/
theorem evaluate_preserves_params (F : Framework Param Grad Opt Data Label Pred)
    (m : Model Param) (bs : List (Data × Label)) :
    ((evaluate F m bs).1).params = m.params := rfl

/-- C4: evaluation is deterministic: two models with equal parameters
produce equal losses (evaluate forces inference mode, a pure function of
the parameters), and in particular rerunning evaluate on the model it
returned reproduces the same loss. -/
theorem evaluate_deterministic (F : Framework Param Grad Opt Data Label Pred)
    (m1 m2 : Model Param) (bs : List (Data × Label))
    (h : m1.params = m2.params) :
    (evaluate F m1 bs).2 = (evaluate F m2 bs).2 ∧
      (evaluate F (evaluate F m1 bs).1 bs).2 = (evaluate F m1 bs).2 := by
  obtain ⟨p1, t1⟩ := m1
  obtain ⟨p2, t2⟩ := m2
  obtain rfl : p1 = p2 := h
  exact ⟨rfl, rfl⟩

/-- C9: evaluate divides by the dataset size with no guard, so it returns
a loss exactly when the batch sequence is non-empty; on zero batches the
division by zero error branch is reached (none). -/
theorem evaluate_empty_raises (F : Framework Param Grad Opt Data Label Pred)
    (m : Model Param) (bs : List (Data × Label)) :
    ((evaluate F m bs).2 = none ↔ bs = []) ∧
      (evaluate F m ([] : List (Data × Label))).2 = none := by
  constructor
  · simp [evaluate, List.length_eq_zero]
  · rfl

/-- C10: evaluate sets the training-mode flag to False and leaves it
False on return, whatever it was before; train_one_epoch sets it back to
True (and its loop preserves it). -/
theorem training_flag_effects (F : Framework Param Grad Opt Data Label Pred)
    (m m2 : Model Param) (o : Opt) (bs bs2 : List (Data × Label)) :
    ((evaluate F m bs).1).training = false ∧
      ((train_one_epoch F m2 o bs2).1).model.training = true := by
  refine ⟨rfl, ?_⟩
  simp only [train_one_epoch, train_fold_training]

/-! ## Characterization of train_one_epoch -/

/-- Running averages continued from an accumulated total lt over sc
earlier steps: mirrors the loss_total / step_total displays. -/
def avgsFrom : ℚ → ℕ → List ℚ → List ℚ
  | _, _, [] => []
  | lt, sc, l :: ls =>
      ((lt + l) / ((sc + 1 : ℕ) : ℚ)) :: avgsFrom (lt + l) (sc + 1) ls

theorem avgsFrom_eq (ls : List ℚ) : ∀ lt : ℚ, ∀ sc : ℕ,
    avgsFrom lt sc ls = (List.range ls.length).map
      fun k => (lt + (ls.take (k + 1)).sum) / ((sc + k + 1 : ℕ) : ℚ) := by
  induction ls with
  | nil => intro lt sc; simp [avgsFrom]
  | cons l ls ih =>
    intro lt sc
    simp only [avgsFrom, ih (lt + l) (sc + 1), List.length_cons,
      List.range_succ_eq_map, List.map_cons, List.map_map, List.take_succ_cons,
      List.sum_cons, List.cons.injEq]
    constructor
    · simp
    · refine List.map_congr_left fun k _ => ?_
      simp only [Function.comp_apply, Nat.succ_eq_add_one]
      have hd : sc + 1 + k + 1 = sc + (k + 1) + 1 := by omega
      rw [hd]
      push_cast
      ring

theorem avgsFrom_zero (ls : List ℚ) : avgsFrom 0 0 ls = prefixAverages ls := by
  rw [avgsFrom_eq]
  unfold prefixAverages
  refine List.map_congr_left fun k _ => ?_
  simp

theorem stepLosses_length (F : Framework Param Grad Opt Data Label Pred)
    (bs : List (Data × Label)) (s : TrainState Param Opt) :
    (stepLosses F s bs).length = bs.length := by
  induction bs generalizing s with
  | nil => rfl
  | cons b bs ih => simp [stepLosses, ih]

theorem train_fold_state (F : Framework Param Grad Opt Data Label Pred)
    (bs : List (Data × Label)) (a : EpochAcc Param Opt) :
    (bs.foldl (train_epoch_body F) a).st
      = bs.foldl (fun s b => (train_step F s b.1 b.2).2) a.st := by
  induction bs generalizing a with
  | nil => rfl
  | cons b bs ih => simp only [List.foldl_cons, ih, train_epoch_body]

theorem train_fold_reports (F : Framework Param Grad Opt Data Label Pred)
    (bs : List (Data × Label)) (a : EpochAcc Param Opt) :
    (bs.foldl (train_epoch_body F) a).reports
      = a.reports ++ avgsFrom a.loss_total a.step_total (stepLosses F a.st bs) := by
  induction bs generalizing a with
  | nil => simp [avgsFrom]
  | cons b bs ih =>
    simp only [List.foldl_cons, ih, train_epoch_body, stepLosses, avgsFrom,
      List.append_assoc, List.singleton_append]

/-- C5: one training epoch performs exactly one optimization step per
batch, in order: the final state is the fold of train_step (each step
computes the loss and gradient at the pre-update parameters, then applies
the optimizer), and after each step the displayed value is the running
average of the losses so far; there is one report per batch and no other
return value. -/
theorem train_one_epoch_spec (F : Framework Param Grad Opt Data Label Pred)
    (m : Model Param) (o : Opt) (bs : List (Data × Label)) :
    (train_one_epoch F m o bs).2.length = bs.length ∧
      (train_one_epoch F m o bs).2
        = prefixAverages (stepLosses F ⟨⟨m.params, true⟩, o⟩ bs) ∧
      (train_one_epoch F m o bs).1
        = bs.foldl (fun s b => (train_step F s b.1 b.2).2) ⟨⟨m.params, true⟩, o⟩ := by
  have hrep : (train_one_epoch F m o bs).2
      = prefixAverages (stepLosses F ⟨⟨m.params, true⟩, o⟩ bs) := by
    simp only [train_one_epoch, train_fold_reports, List.nil_append,
      avgsFrom_zero]
  refine ⟨?_, hrep, ?_⟩
  · rw [hrep]
    simp [prefixAverages, stepLosses_length]
  · simp only [train_one_epoch, train_fold_state]

/-! ## The checkpoint policy of the epoch loop -/

theorem runEpoch_eq_some (F : Framework Param Grad Opt Data Label Pred)
    (trainB valB : List (Data × Label)) (s : LoopState Param Opt)
    (hval : valB ≠ []) :
    runEpoch F trainB valB s = some (runEpochT F trainB valB s) := by
  have h0 : valB.length ≠ 0 := by simpa [List.length_eq_zero] using hval
  simp only [runEpoch, runEpochT, evaluate, if_neg h0]
  split <;> rfl

theorem stateAfter_succ_front (F : Framework Param Grad Opt Data Label Pred)
    (trainB valB : List (Data × Label)) (s : LoopState Param Opt) (e : ℕ) :
    stateAfter F trainB valB s (e + 1)
      = stateAfter F trainB valB (runEpochT F trainB valB s).1 e := by
  induction e with
  | zero => rfl
  | succ e ih =>
    show (runEpochT F trainB valB (stateAfter F trainB valB s (e + 1))).1 = _
    rw [ih]
    rfl

theorem runEpochs_eq_stateAfter (F : Framework Param Grad Opt Data Label Pred)
    (trainB valB : List (Data × Label)) (hval : valB ≠ []) :
    ∀ (e : ℕ) (s : LoopState Param Opt),
      runEpochs F trainB valB e s = some (stateAfter F trainB valB s e) := by
  intro e
  induction e with
  | zero => intro s; rfl
  | succ e ih =>
    intro s
    rw [runEpochs, runEpoch_eq_some F trainB valB s hval]
    simp only [Option.some_bind, ih, stateAfter_succ_front]

theorem runEpochT_best (F : Framework Param Grad Opt Data Label Pred)
    (trainB valB : List (Data × Label)) (s : LoopState Param Opt) :
    (runEpochT F trainB valB s).1.best_valid_loss
      = min s.best_valid_loss ((runEpochT F trainB valB s).2.1 : WithTop ℚ) := by
  simp only [runEpochT]
  split_ifs with h
  · exact (min_eq_right h.le).symm
  · exact (min_eq_left (not_lt.mp h)).symm

theorem runEpochT_wrote_iff (F : Framework Param Grad Opt Data Label Pred)
    (trainB valB : List (Data × Label)) (s : LoopState Param Opt) :
    (runEpochT F trainB valB s).2.2 = true
      ↔ ((runEpochT F trainB valB s).2.1 : WithTop ℚ) < s.best_valid_loss := by
  simp only [runEpochT]
  split_ifs with h <;> simp [h]

theorem runEpochT_wrote_effects (F : Framework Param Grad Opt Data Label Pred)
    (trainB valB : List (Data × Label)) (s : LoopState Param Opt)
    (h : (runEpochT F trainB valB s).2.2 = true) :
    (runEpochT F trainB valB s).1.best_valid_loss
        = ((runEpochT F trainB valB s).2.1 : WithTop ℚ) ∧
      (runEpochT F trainB valB s).1.ckpt
        = some ((runEpochT F trainB valB s).1.model.params) := by
  simp only [runEpochT] at h ⊢
  split_ifs at h ⊢
  exact ⟨rfl, rfl⟩

theorem runEpochT_nowrote_effects (F : Framework Param Grad Opt Data Label Pred)
    (trainB valB : List (Data × Label)) (s : LoopState Param Opt)
    (h : (runEpochT F trainB valB s).2.2 = false) :
    (runEpochT F trainB valB s).1.best_valid_loss = s.best_valid_loss ∧
      (runEpochT F trainB valB s).1.ckpt = s.ckpt := by
  simp only [runEpochT] at h ⊢
  split_ifs at h ⊢
  exact ⟨rfl, rfl⟩

theorem best_invariant (F : Framework Param Grad Opt Data Label Pred)
    (trainB valB : List (Data × Label)) (m : Model Param) (o : Opt) (e : ℕ) :
    (stateAfter F trainB valB (initialState m o) e).best_valid_loss
      = minPrevLoss F trainB valB (initialState m o) e := by
  induction e with
  | zero => rfl
  | succ e ih =>
    show (runEpochT F trainB valB
        (stateAfter F trainB valB (initialState m o) e)).1.best_valid_loss = _
    rw [runEpochT_best, ih]
    simp only [minPrevLoss, lossAt, List.range_succ, List.map_append,
      List.map_cons, List.map_nil, List.foldl_append, List.foldl_cons,
      List.foldl_nil]

/-- C1: in the epoch loop (with a non-empty validation set, so evaluate
never raises), the fallible loop agrees with its total mirror; a
checkpoint write occurs in epoch e if and only if the validation loss of
epoch e is strictly below the minimum of all earlier validation losses
(the empty minimum being the initial best, float inf); the tracked best
is always that minimum; on a write the best becomes the new loss and the
checkpoint file is overwritten with the current model parameters, and
without a write both are left untouched. -/
theorem checkpoint_write_iff_improvement
    (F : Framework Param Grad Opt Data Label Pred)
    (trainB valB : List (Data × Label)) (m : Model Param) (o : Opt)
    (hval : valB ≠ []) (e : ℕ) (_he : e < num_epochs) :
    runEpochs F trainB valB num_epochs (initialState m o)
        = some (stateAfter F trainB valB (initialState m o) num_epochs) ∧
      (wroteAt F trainB valB (initialState m o) e = true
        ↔ ((lossAt F trainB valB (initialState m o) e : ℚ) : WithTop ℚ)
            < minPrevLoss F trainB valB (initialState m o) e) ∧
      (stateAfter F trainB valB (initialState m o) e).best_valid_loss
        = minPrevLoss F trainB valB (initialState m o) e ∧
      (wroteAt F trainB valB (initialState m o) e = true →
        (stateAfter F trainB valB (initialState m o) (e + 1)).best_valid_loss
            = ((lossAt F trainB valB (initialState m o) e : ℚ) : WithTop ℚ) ∧
          (stateAfter F trainB valB (initialState m o) (e + 1)).ckpt
            = some ((stateAfter F trainB valB (initialState m o)
                (e + 1)).model.params)) ∧
      (wroteAt F trainB valB (initialState m o) e = false →
        (stateAfter F trainB valB (initialState m o) (e + 1)).best_valid_loss
            = (stateAfter F trainB valB (initialState m o) e).best_valid_loss ∧
          (stateAfter F trainB valB (initialState m o) (e + 1)).ckpt
            = (stateAfter F trainB valB (initialState m o) e).ckpt) := by
  refine ⟨runEpochs_eq_stateAfter F trainB valB hval num_epochs _, ?_, ?_, ?_, ?_⟩
  · rw [wroteAt, lossAt, runEpochT_wrote_iff, best_invariant]
  · exact best_invariant F trainB valB m o e
  · intro hw
    exact runEpochT_wrote_effects F trainB valB _ hw
  · intro hw
    have h := runEpochT_nowrote_effects F trainB valB
      (stateAfter F trainB valB (initialState m o) e) hw
    exact h

/-! ## A concrete instantiation used by the closed witnesses -/

/-- A concrete framework over rational scalars: forward adds parameter
and input, the gradient is constantly 1, the optimizer subtracts the
gradient from the parameter and counts its steps, the criterion subtracts
the label. -/
def demoF : Framework ℚ ℚ ℚ ℚ ℚ ℚ where
  forward := fun _ p d => p + d
  grad := fun _ _ _ _ => 1
  optStep := fun o p g => (o + 1, p - g)
  criterion := fun pr l => pr - l
  accuracy := fun _ _ => 0

/-- A concrete batch list, model and optimizer state for the witnesses. -/
def demoB : List (ℚ × ℚ) := [(1, 0)]
def demoM : Model ℚ := ⟨10, false⟩

/-- Closed witness for the checkpoint-policy theorem at epoch 1 of a
concrete run. -/
theorem checkpoint_write_iff_improvement_witness :
    runEpochs demoF demoB demoB num_epochs (initialState demoM 0)
        = some (stateAfter demoF demoB demoB (initialState demoM 0) num_epochs) ∧
      (wroteAt demoF demoB demoB (initialState demoM 0) 1 = true
        ↔ ((lossAt demoF demoB demoB (initialState demoM 0) 1 : ℚ) : WithTop ℚ)
            < minPrevLoss demoF demoB demoB (initialState demoM 0) 1) ∧
      (stateAfter demoF demoB demoB (initialState demoM 0) 1).best_valid_loss
        = minPrevLoss demoF demoB demoB (initialState demoM 0) 1 ∧
      (wroteAt demoF demoB demoB (initialState demoM 0) 1 = true →
        (stateAfter demoF demoB demoB (initialState demoM 0) 2).best_valid_loss
            = ((lossAt demoF demoB demoB (initialState demoM 0) 1 : ℚ) : WithTop ℚ) ∧
          (stateAfter demoF demoB demoB (initialState demoM 0) 2).ckpt
            = some ((stateAfter demoF demoB demoB
                (initialState demoM 0) 2).model.params)) ∧
      (wroteAt demoF demoB demoB (initialState demoM 0) 1 = false →
        (stateAfter demoF demoB demoB (initialState demoM 0) 2).best_valid_loss
            = (stateAfter demoF demoB demoB (initialState demoM 0) 1).best_valid_loss ∧
          (stateAfter demoF demoB demoB (initialState demoM 0) 2).ckpt
            = (stateAfter demoF demoB demoB (initialState demoM 0) 1).ckpt) :=
  checkpoint_write_iff_improvement demoF demoB demoB demoM 0
    (by decide) 1 (by decide)


/-- Closed witness for the mean-loss theorem at a two-batch dataset. -/
theorem evaluate_mean_loss_witness :
    (evaluate demoF ⟨10, true⟩ [((1 : ℚ), (0 : ℚ)), (2, 1)]).2
      = some ((([((1 : ℚ), (0 : ℚ)), (2, 1)].map
            (batchLoss demoF ⟨(10 : ℚ), false⟩)).sum)
          / ((([((1 : ℚ), (0 : ℚ)), (2, 1)] : List (ℚ × ℚ)).length : ℕ) : ℚ)) :=
  evaluate_mean_loss demoF ⟨10, true⟩ [((1 : ℚ), (0 : ℚ)), (2, 1)] (by decide)

/-- Closed witness for the determinism theorem at concrete models with
equal parameters but different training flags. -/
theorem evaluate_deterministic_witness :
    (evaluate demoF ⟨10, true⟩ [((1 : ℚ), (0 : ℚ))]).2
        = (evaluate demoF ⟨10, false⟩ [((1 : ℚ), (0 : ℚ))]).2 ∧
      (evaluate demoF (evaluate demoF ⟨10, true⟩ [((1 : ℚ), (0 : ℚ))]).1
          [((1 : ℚ), (0 : ℚ))]).2
        = (evaluate demoF ⟨10, true⟩ [((1 : ℚ), (0 : ℚ))]).2 :=
  evaluate_deterministic demoF ⟨10, true⟩ ⟨10, false⟩ [((1 : ℚ), (0 : ℚ))] rfl

end Orchestration

end BilstmImdb
